import Mathlib

/-!
Shallow embedding of the hospital-bulk-processor pipeline.

The definitions below are translated from the repository source:

* `src/app/domain/schemas.py` — data model (job status, item results, bulk
  response, submission response);
* `src/app/repositories/job_repository.py` — the `Job` record and the
  repository mutators `update_status`, `set_result`, `set_error`, plus the
  derived `progress_percentage` accessor;
* `src/app/tasks/tasks.py` — the batch orchestrator
  (`_process_hospitals_async`, `_create_hospitals_concurrently`,
  `_create_single_hospital`);
* `src/app/external/hospital_api_client.py` — the external client operations
  `create_hospital` and `activate_batch` (response handling of each body, and
  the retry / circuit-breaker wrappers around them);
* `src/app/core/resilience.py` — the circuit breaker (`APICircuitBreaker`,
  backed by pybreaker semantics) and the retry policy (tenacity
  `stop_after_attempt` with `reraise=True`);
* `src/app/core/idempotency.py` — the TTL idempotency cache;
* `src/app/services/job_service.py` — `JobService.submit_bulk_job`.

Effects are made explicit: wall-clock readings, remote-call outcomes and the
freshly minted identifiers are inputs; the repository is a pure record that
each mutator transforms; the orchestrator additionally returns the list of
successive job-record states it wrote and the trace of client calls it issued.
-/

/-- Job processing status, from `JobStatus` in `schemas.py`. -/
inductive JobStatus where
  | pending
  | processing
  | completed
  | failed
deriving DecidableEq, Repr

/-- Hospital creation data, from `HospitalCreate` in `schemas.py`. -/
structure HospitalCreate where
  name : String
  address : String
  phone : Option String
  row_number : Nat
deriving DecidableEq, Repr

/-- Result of processing a single hospital, from `HospitalProcessingResult`
in `schemas.py`.  The status field is the literal string the code stores:
one of "created", "created_and_activated", "failed". -/
structure HospitalProcessingResult where
  row : Nat
  hospital_id : Option Nat
  name : String
  status : String
  error_message : Option String
deriving DecidableEq, Repr

/-- Response for bulk hospital creation, from `BulkCreateResponse` in
`schemas.py`.  Batch ids are opaque; we model them as naturals.  The
processing time is an opaque reading supplied by the environment. -/
structure BulkCreateResponse where
  batch_id : Nat
  total_hospitals : Nat
  processed_hospitals : Nat
  failed_hospitals : Nat
  processing_time_seconds : Nat
  batch_activated : Bool
  hospitals : List HospitalProcessingResult
deriving DecidableEq, Repr

/-- The job record, from class `Job` in `job_repository.py`.  Timestamps are
abstract clock readings (`Option Nat`, none until written). -/
structure Job where
  job_id : String
  status : JobStatus
  total_hospitals : Nat
  processed_hospitals : Nat
  failed_hospitals : Nat
  started_at : Option Nat
  completed_at : Option Nat
  result : Option BulkCreateResponse
  error : Option String
deriving DecidableEq, Repr

/-- Rounding a rational to two decimal places, modelling Python
`round(x, 2)` at the precision the claims need. -/
def round2 (q : ℚ) : ℚ := (round (q * 100) : ℚ) / 100

/-- The `progress_percentage` property of `Job` in `job_repository.py`:
returns 0.0 when `total_hospitals` is 0, otherwise the processed ratio as a
percentage rounded to two decimals. -/
def Job.progress_percentage (j : Job) : ℚ :=
  if j.total_hospitals = 0 then 0
  else round2 (((j.processed_hospitals : ℚ) / (j.total_hospitals : ℚ)) * 100)

namespace JobRepository

/-- `JobRepository.create`: a fresh job in PENDING with zero counters and no
timestamps.  The generated uuid is an input. -/
def create (freshId : String) (total_hospitals : Nat) : Job :=
  { job_id := freshId
    status := JobStatus.pending
    total_hospitals := total_hospitals
    processed_hospitals := 0
    failed_hospitals := 0
    started_at := none
    completed_at := none
    result := none
    error := none }

/-- `JobRepository.update_status`: sets the status; stamps `started_at` on
the first transition to PROCESSING; on any transition to a terminal status it
stamps `started_at` if still unset and unconditionally writes `completed_at`
with the current clock reading. -/
def update_status (j : Job) (s : JobStatus) (now : Nat) : Job :=
  let j1 := { j with status := s }
  let j2 :=
    if s = JobStatus.processing ∧ j1.started_at = none then
      { j1 with started_at := some now }
    else j1
  if s = JobStatus.completed ∨ s = JobStatus.failed then
    let j3 := if j2.started_at = none then { j2 with started_at := some now } else j2
    { j3 with completed_at := some now }
  else j2

/-- `JobRepository.set_result`: stores the serialized bulk response and
copies its processed / failed counters onto the job row. -/
def set_result (j : Job) (r : BulkCreateResponse) : Job :=
  { j with
    result := some r
    processed_hospitals := r.processed_hospitals
    failed_hospitals := r.failed_hospitals }

/-- `JobRepository.set_error`: stores the error text, forces the status to
FAILED, stamps `started_at` if unset and writes `completed_at`. -/
def set_error (j : Job) (e : String) (now : Nat) : Job :=
  let j1 := { j with error := some e, status := JobStatus.failed }
  let j2 := if j1.started_at = none then { j1 with started_at := some now } else j1
  { j2 with completed_at := some now }

end JobRepository

/-! ## Batch orchestrator (`src/app/tasks/tasks.py`) -/

/-- Outcome of one `create_hospital` client call as observed by the per-item
task: the client returned `(hospital, None)`, the client returned
`(None, error)` (ordinary API rejection), or the call raised. -/
inductive CreateOutcome where
  | ok (entityId : Nat)
  | apiError (msg : String)
  | exn (msg : String)
deriving DecidableEq, Repr

/-- Outcome of the `activate_batch` client call as observed by the
orchestrator: `(True, None)`, `(False, error)`, or an exception. -/
inductive ActivateOutcome where
  | ok
  | apiError (msg : String)
  | exn (msg : String)
deriving DecidableEq, Repr

/-- One remote operation issued through the external client.  The client
exposes create, activate and delete; the trace records which the
orchestrator actually invokes. -/
inductive ClientCall where
  | createCall (row : Nat)
  | activateCall (batchId : Nat)
  | deleteCall (batchId : Nat)
deriving DecidableEq, Repr

/-- Whether a client call is a batch activation. -/
def ClientCall.isActivate : ClientCall → Bool
  | .activateCall _ => true
  | _ => false

/-- Whether a client call is a batch delete (rollback). -/
def ClientCall.isDelete : ClientCall → Bool
  | .deleteCall _ => true
  | _ => false

/-- Environment of one orchestrator run: the outcome of each per-item create
(in input order), the outcome of the activation call should it be made, the
batch id minted by `uuid4()`, the clock readings used for the two status
writes, and the measured processing time. -/
structure OrchEnv where
  outcomes : List CreateOutcome
  activation : ActivateOutcome
  batchId : Nat
  tStart : Nat
  tEnd : Nat
  procTime : Nat
deriving Repr

/-- `_create_single_hospital`: calls the client for one row and always
returns a result.  A successful create yields status "created"; an API
rejection yields "failed" with the error text; an unexpected exception is
caught locally and converted to "failed" with the exception text — it never
propagates, so the function is total. -/
def create_single_hospital (h : HospitalCreate) (o : CreateOutcome) :
    HospitalProcessingResult :=
  match o with
  | .ok entityId =>
      { row := h.row_number
        hospital_id := some entityId
        name := h.name
        status := "created"
        error_message := none }
  | .apiError e =>
      { row := h.row_number
        hospital_id := none
        name := h.name
        status := "failed"
        error_message := some e }
  | .exn e =>
      { row := h.row_number
        hospital_id := none
        name := h.name
        status := "failed"
        error_message := some ("Unexpected error: " ++ e) }

/-- `_create_hospitals_concurrently`: one task per input item, gathered in
input order. -/
def create_hospitals_concurrently (hs : List HospitalCreate)
    (outs : List CreateOutcome) : List HospitalProcessingResult :=
  List.zipWith create_single_hospital hs outs

/-- `_process_hospitals_async`: the full orchestrator body on the normal
path.  Returns the final job record, the successive job-record states it
wrote (after the PROCESSING write, after `set_result`, after the COMPLETED
write), the trace of client calls issued, and the bulk response it stored. -/
def process_hospitals_async (job : Job) (hospitals : List HospitalCreate)
    (env : OrchEnv) :
    Job × List Job × List ClientCall × BulkCreateResponse :=
  let j1 := JobRepository.update_status job JobStatus.processing env.tStart
  let results := create_hospitals_concurrently hospitals env.outcomes
  let createCalls := hospitals.map (fun h => ClientCall.createCall h.row_number)
  let failed_count := results.countP (fun r => r.status == "failed")
  let success_count := results.length - failed_count
  let activationCalls :=
    if failed_count = 0 then [ClientCall.activateCall env.batchId] else []
  let batch_activated :=
    if failed_count = 0 then
      match env.activation with
      | .ok => true
      | .apiError _ => false
      | .exn _ => false
    else false
  let finalResults :=
    if failed_count = 0 then
      match env.activation with
      | .ok => results.map (fun r => { r with status := "created_and_activated" })
      | .apiError _ => results
      | .exn _ => results
    else results
  let resp : BulkCreateResponse :=
    { batch_id := env.batchId
      total_hospitals := hospitals.length
      processed_hospitals := success_count
      failed_hospitals := failed_count
      processing_time_seconds := env.procTime
      batch_activated := batch_activated
      hospitals := finalResults }
  let j2 := JobRepository.set_result j1 resp
  let j3 := JobRepository.update_status j2 JobStatus.completed env.tEnd
  (j3, [j1, j2, j3], createCalls ++ activationCalls, resp)

/-! ## External client and resilience gate
(`src/app/external/hospital_api_client.py`, `src/app/core/resilience.py`) -/

/-- What one HTTP attempt against the remote service does: a response with a
status code (carrying the created entity id when relevant and the response
body text), a timeout, a connection-level request error, or some other
exception raised inside the call. -/
inductive HttpOutcome where
  | response (code : Nat) (entityId : Nat) (body : String)
  | timeout (msg : String)
  | connError (msg : String)
  | otherExn (msg : String)
deriving DecidableEq, Repr

/-- Exceptions the client layer can surface: `ExternalAPIException` raised by
the call bodies, and `CircuitBreakerError` raised by the breaker while
OPEN. -/
inductive PyExn where
  | externalAPI (msg : String)
  | circuitBreakerOpen
deriving DecidableEq, Repr

/-- Body of `HospitalAPIClient.create_hospital` (one attempt, inside the
retry and breaker decorators): 200/201 yields `(hospital, None)`; any other
status code is returned as `(None, error)`; timeout, request error and any
other exception are re-raised as `ExternalAPIException`. -/
def create_hospital_body (o : HttpOutcome) :
    Except PyExn (Option Nat × Option String) :=
  match o with
  | .response code entityId body =>
      if code = 200 ∨ code = 201 then Except.ok (some entityId, none)
      else
        Except.ok
          (none, some ("API returned status " ++ toString code ++ ": " ++ body))
  | .timeout m => Except.error (PyExn.externalAPI ("Request timeout: " ++ m))
  | .connError m => Except.error (PyExn.externalAPI ("Request error: " ++ m))
  | .otherExn m => Except.error (PyExn.externalAPI ("Unexpected error: " ++ m))

/-- Body of `HospitalAPIClient.activate_batch` (one attempt): 200/204 yields
`(True, None)`; any other status code is returned as `(False, error)`; every
exception raised inside the body — timeouts and connection errors included —
is caught by the blanket `except Exception` handler and returned as
`(False, error)`. -/
def activate_batch_body (o : HttpOutcome) :
    Except PyExn (Bool × Option String) :=
  match o with
  | .response code _ body =>
      if code = 200 ∨ code = 204 then Except.ok (true, none)
      else
        Except.ok
          (false, some ("API returned status " ++ toString code ++ ": " ++ body))
  | .timeout m => Except.ok (false, some ("Error activating batch: " ++ m))
  | .connError m => Except.ok (false, some ("Error activating batch: " ++ m))
  | .otherExn m => Except.ok (false, some ("Error activating batch: " ++ m))

/-- Tenacity retry loop with `stop_after_attempt` and `reraise=True`,
counting body invocations.  `att i` is what the remote does on the i-th
attempt; `fuel` is the number of retries still allowed after the current
attempt.  Returns the final result and how many times the body ran. -/
def retryExec {α : Type} (body : HttpOutcome → Except PyExn α)
    (att : Nat → HttpOutcome) (i : Nat) : Nat → Except PyExn α × Nat
  | 0 => (body (att i), 1)
  | fuel + 1 =>
      match body (att i) with
      | .ok a => (.ok a, 1)
      | .error _ =>
          let p := retryExec body att (i + 1) fuel
          (p.1, p.2 + 1)

/-- The `@retry(stop=stop_after_attempt(maxAttempts), reraise=True)`
decorator: at most `maxAttempts` body invocations, re-raising the last
error once attempts are exhausted. -/
def retryCall {α : Type} (body : HttpOutcome → Except PyExn α)
    (att : Nat → HttpOutcome) (maxAttempts : Nat) : Except PyExn α × Nat :=
  retryExec body att 0 (maxAttempts - 1)

/-- Circuit breaker state (pybreaker): CLOSED with its consecutive-failure
count, or OPEN since a given instant.  The HALF_OPEN trial is folded into
the OPEN branch once the recovery timeout has elapsed. -/
inductive CBState where
  | closed (failCount : Nat)
  | opened (openedAt : Nat)
deriving DecidableEq, Repr

/-- `APICircuitBreaker.__call__` / pybreaker `call_async`: while OPEN and
within `resetTimeout`, fail immediately with `CircuitBreakerError` without
invoking the wrapped function; once the timeout has elapsed, allow a trial
call (success closes the breaker, failure re-opens it); while CLOSED, pass
through, reset the failure count on success and trip to OPEN after
`failMax` consecutive failures.  The wrapped function reports how many
times the remote body ran; that count is forwarded. -/
def breakerCall {α : Type} (failMax resetTimeout : Nat) (st : CBState)
    (now : Nat) (inner : Unit → Except PyExn α × Nat) :
    Except PyExn α × CBState × Nat :=
  match st with
  | .opened t =>
      if now < t + resetTimeout then
        (Except.error PyExn.circuitBreakerOpen, CBState.opened t, 0)
      else
        match inner () with
        | (.ok a, n) => (.ok a, CBState.closed 0, n)
        | (.error e, n) => (.error e, CBState.opened now, n)
  | .closed k =>
      match inner () with
      | (.ok a, n) => (.ok a, CBState.closed 0, n)
      | (.error e, n) =>
          if failMax ≤ k + 1 then (.error e, CBState.opened now, n)
          else (.error e, CBState.closed (k + 1), n)

/-- The composed `create_hospital` operation: the circuit breaker wraps the
retry policy, which wraps the call body (decorator order in the source is
breaker outermost).  Returns the result, the breaker state after the call
and the number of times the remote body was invoked. -/
def create_hospital (failMax resetTimeout maxAttempts : Nat) (st : CBState)
    (now : Nat) (att : Nat → HttpOutcome) :
    Except PyExn (Option Nat × Option String) × CBState × Nat :=
  breakerCall failMax resetTimeout st now
    (fun _ => retryCall create_hospital_body att maxAttempts)

/-- The composed `activate_batch` operation, wrapped the same way as
`create_hospital`. -/
def activate_batch (failMax resetTimeout maxAttempts : Nat) (st : CBState)
    (now : Nat) (att : Nat → HttpOutcome) :
    Except PyExn (Bool × Option String) × CBState × Nat :=
  breakerCall failMax resetTimeout st now
    (fun _ => retryCall activate_batch_body att maxAttempts)

/-! ## Idempotency cache (`src/app/core/idempotency.py`) and submission
service (`src/app/services/job_service.py`) -/

/-- Response when a job is submitted, from `JobSubmitResponse` in
`schemas.py`. -/
structure JobSubmitResponse where
  job_id : String
  status : JobStatus
  message : String
  total_hospitals : Nat
deriving DecidableEq, Repr

/-- The Redis-backed idempotency store: entries of key, cached submission
response and absolute expiry instant.  A fresh `setex` is prepended, so the
most recent write for a key wins. -/
def IdemCache : Type := List (String × JobSubmitResponse × Nat)

namespace IdempotencyStore

/-- `RedisIdempotencyStore.get`: the cached response for the key, provided
its TTL has not elapsed; absent otherwise. -/
def get : IdemCache → String → Nat → Option JobSubmitResponse
  | [], _, _ => none
  | (k0, v, exp) :: rest, k, now =>
      if k0 = k then (if now < exp then some v else none)
      else get rest k now

/-- `RedisIdempotencyStore.set`: `setex` with the fixed TTL, expiring at
`now + ttl`. -/
def set (c : IdemCache) (k : String) (v : JobSubmitResponse) (now ttl : Nat) :
    IdemCache :=
  (k, v, now + ttl) :: c

end IdempotencyStore

/-- What `process_bulk_hospitals_task.delay` does for this submission:
hand-off succeeds, or raises `kombu.exceptions.OperationalError`, or raises
some other exception. -/
inductive DispatchOutcome where
  | ok
  | opError (msg : String)
  | exn (msg : String)
deriving DecidableEq, Repr

/-- State touched by the submission service: the idempotency cache, the job
store rows, and the units of work handed to the channel (job id with its
item count). -/
structure SubmitState where
  cache : IdemCache
  jobs : List Job
  dispatched : List (String × Nat)

namespace JobService

/-- `JobService.submit_bulk_job`: check the idempotency cache; on a hit,
return the cached response unchanged.  Otherwise create a PENDING job,
dispatch to the channel; if dispatch raises, set the job FAILED with a
descriptive error and surface an HTTP error (503 for the queue-unavailable
case, 500 otherwise) without caching anything; if dispatch succeeds, build
the response, cache it under the key and return it.  Besides the result and
the new state, the list of statuses assigned to this submission's job is
returned (PENDING at creation, then any updates). -/
def submit_bulk_job (st : SubmitState) (hospitals : List HospitalCreate)
    (key freshId : String) (disp : DispatchOutcome) (now ttl : Nat) :
    Except (Nat × String) JobSubmitResponse × SubmitState × List JobStatus :=
  match IdempotencyStore.get st.cache key now with
  | some cached => (Except.ok cached, st, [])
  | none =>
      let job := JobRepository.create freshId hospitals.length
      let jobs1 := st.jobs ++ [job]
      match disp with
      | .ok =>
          let resp : JobSubmitResponse :=
            { job_id := freshId
              status := JobStatus.pending
              message :=
                "Job accepted and queued for processing. Use the job_id to check status."
              total_hospitals := hospitals.length }
          (Except.ok resp,
            { cache := IdempotencyStore.set st.cache key resp now ttl
              jobs := jobs1
              dispatched := st.dispatched ++ [(freshId, hospitals.length)] },
            [JobStatus.pending])
      | .opError _ =>
          let jobs2 := jobs1.map fun j =>
            if j.job_id = freshId then
              JobRepository.set_error
                (JobRepository.update_status j JobStatus.failed now)
                "Message queue unavailable" now
            else j
          (Except.error (503, "Service temporarily unavailable. Please try again later."),
            { cache := st.cache, jobs := jobs2, dispatched := st.dispatched },
            [JobStatus.pending, JobStatus.failed, JobStatus.failed])
      | .exn m =>
          let jobs2 := jobs1.map fun j =>
            if j.job_id = freshId then
              JobRepository.set_error
                (JobRepository.update_status j JobStatus.failed now)
                ("Failed to queue job: " ++ m) now
            else j
          (Except.error (500, "Failed to submit job for processing. Please try again later."),
            { cache := st.cache, jobs := jobs2, dispatched := st.dispatched },
            [JobStatus.pending, JobStatus.failed, JobStatus.failed])

end JobService

/-! ## Helper lemmas -/

/-- The status written by `update_status` is the requested one. -/
lemma update_status_status (j : Job) (s : JobStatus) (now : Nat) :
    (JobRepository.update_status j s now).status = s := by
  dsimp only [JobRepository.update_status]
  repeat' split
  all_goals simp_all

/-- `update_status` does not touch the counters or the total. -/
lemma update_status_counts (j : Job) (s : JobStatus) (now : Nat) :
    (JobRepository.update_status j s now).processed_hospitals = j.processed_hospitals
    ∧ (JobRepository.update_status j s now).failed_hospitals = j.failed_hospitals
    ∧ (JobRepository.update_status j s now).total_hospitals = j.total_hospitals := by
  dsimp only [JobRepository.update_status]
  repeat' split
  all_goals simp_all

/-- `update_status` does not touch the stored result. -/
lemma update_status_result (j : Job) (s : JobStatus) (now : Nat) :
    (JobRepository.update_status j s now).result = j.result := by
  dsimp only [JobRepository.update_status]
  repeat' split
  all_goals simp_all

/-- A transition to a terminal status unconditionally overwrites the
completion timestamp with the current clock reading. -/
lemma update_status_terminal_completed_at (j : Job) (s : JobStatus) (now : Nat)
    (h : s = JobStatus.completed ∨ s = JobStatus.failed) :
    (JobRepository.update_status j s now).completed_at = some now := by
  dsimp only [JobRepository.update_status]
  repeat' split
  all_goals simp_all

/-- When every create outcome is a success, every gathered item result has
status "created". -/
lemma create_results_all_created (hs : List HospitalCreate)
    (outs : List CreateOutcome)
    (hok : ∀ o ∈ outs, ∃ n, o = CreateOutcome.ok n) :
    ∀ r ∈ create_hospitals_concurrently hs outs, r.status = "created" := by
  induction hs generalizing outs with
  | nil => simp [create_hospitals_concurrently]
  | cons h t ih =>
      cases outs with
      | nil => simp [create_hospitals_concurrently]
      | cons o os =>
          intro r hr
          simp only [create_hospitals_concurrently, List.zipWith_cons_cons,
            List.mem_cons] at hr
          rcases hr with hr | hr
          · obtain ⟨n, rfl⟩ := hok o (by simp)
            subst hr
            rfl
          · exact ih os (fun o' ho' => hok o' (by simp [ho'])) r hr

/-- The per-item create calls contain no activation call. -/
lemma filter_isActivate_createCalls (hs : List HospitalCreate) :
    (hs.map fun h => ClientCall.createCall h.row_number).filter
      ClientCall.isActivate = [] := by
  induction hs with
  | nil => rfl
  | cons h t ih =>
      simp only [List.map_cons, List.filter_cons, ClientCall.isActivate]
      exact ih

/-- No branch of the orchestrator issues a delete call. -/
lemma orchestrator_never_deletes (job : Job) (hs : List HospitalCreate)
    (env : OrchEnv) :
    ((process_hospitals_async job hs env).2.2.1).filter ClientCall.isDelete
      = [] := by
  unfold process_hospitals_async
  simp only [List.filter_append, List.append_eq_nil]
  constructor
  · induction hs with
    | nil => rfl
    | cons h t ih =>
        simp only [List.map_cons, List.filter_cons, ClientCall.isDelete]
        exact ih
  · split <;> simp [ClientCall.isDelete]

/-- C1: in every job run where every per-item create succeeds, the
orchestrator attempts activation exactly once, on the minted batch id; if
activation returns success every item result is upgraded to
"created_and_activated" and the stored result has `batch_activated = true`;
if activation returns failure or raises, every item result keeps status
"created" and the stored result has `batch_activated = false`; in all cases
the job is finalized COMPLETED with the bulk response stored as its
result. -/
theorem orchestrator_all_success_activation (job : Job)
    (hospitals : List HospitalCreate) (env : OrchEnv)
    (hok : ∀ o ∈ env.outcomes, ∃ n, o = CreateOutcome.ok n) :
    ((process_hospitals_async job hospitals env).2.2.1).filter
        ClientCall.isActivate = [ClientCall.activateCall env.batchId]
    ∧ (process_hospitals_async job hospitals env).1.status = JobStatus.completed
    ∧ (process_hospitals_async job hospitals env).1.result
        = some (process_hospitals_async job hospitals env).2.2.2
    ∧ (env.activation = ActivateOutcome.ok →
        (process_hospitals_async job hospitals env).2.2.2.batch_activated = true
        ∧ ∀ r ∈ (process_hospitals_async job hospitals env).2.2.2.hospitals,
            r.status = "created_and_activated")
    ∧ (env.activation ≠ ActivateOutcome.ok →
        (process_hospitals_async job hospitals env).2.2.2.batch_activated = false
        ∧ ∀ r ∈ (process_hospitals_async job hospitals env).2.2.2.hospitals,
            r.status = "created") := by
  have hres := create_results_all_created hospitals env.outcomes hok
  have hfc : (create_hospitals_concurrently hospitals env.outcomes).countP
      (fun r => r.status == "failed") = 0 := by
    refine List.countP_eq_zero.mpr ?_
    intro r hr
    simp [hres r hr]
  unfold process_hospitals_async
  simp only [hfc, if_pos rfl, reduceIte]
  refine ⟨?_, ?_, ?_, ?_, ?_⟩
  · simp [List.filter_append, filter_isActivate_createCalls, ClientCall.isActivate]
  · exact update_status_status _ _ _
  · rw [update_status_result]
    rfl
  · intro hact
    rw [hact]
    refine ⟨rfl, ?_⟩
    intro r hr
    simp only [List.mem_map] at hr
    obtain ⟨a, _, rfl⟩ := hr
    rfl
  · intro hact
    cases hca : env.activation with
    | ok => exact absurd hca hact
    | apiError m => exact ⟨rfl, fun r hr => hres r hr⟩
    | exn m => exact ⟨rfl, fun r hr => hres r hr⟩

/-- A sample input row used by the concrete witnesses. -/
def hospitalW : HospitalCreate :=
  { name := "Alpha", address := "1 Main St", phone := none, row_number := 1 }

/-- Witness for the all-success activation protocol: a concrete one-item run
whose create succeeds and whose activation succeeds. -/
theorem orchestrator_all_success_activation_witness :
    (∀ o ∈ ([CreateOutcome.ok 5] : List CreateOutcome), ∃ n, o = CreateOutcome.ok n)
    ∧ (process_hospitals_async (JobRepository.create "j" 1) [hospitalW]
        ⟨[CreateOutcome.ok 5], ActivateOutcome.ok, 7, 1, 2, 0⟩).1.status
        = JobStatus.completed := by
  have hok : ∀ o ∈ ([CreateOutcome.ok 5] : List CreateOutcome),
      ∃ n, o = CreateOutcome.ok n := by
    intro o ho
    rw [List.mem_singleton] at ho
    exact ⟨5, ho⟩
  exact ⟨hok,
    (orchestrator_all_success_activation (JobRepository.create "j" 1) [hospitalW]
      ⟨[CreateOutcome.ok 5], ActivateOutcome.ok, 7, 1, 2, 0⟩ hok).2.1⟩

/-- C2: in every job run with at least one failed item result, activation is
never attempted and the stored result has `batch_activated = false`, while
the job is still finalized COMPLETED with the response stored; moreover no
branch of the orchestrator ever issues a delete (rollback) call on the
batch. -/
theorem orchestrator_failure_no_activation_no_rollback (job : Job)
    (hospitals : List HospitalCreate) (env : OrchEnv)
    (hfail : ∃ r ∈ create_hospitals_concurrently hospitals env.outcomes,
        r.status = "failed") :
    ((process_hospitals_async job hospitals env).2.2.1).filter
        ClientCall.isActivate = []
    ∧ (process_hospitals_async job hospitals env).2.2.2.batch_activated = false
    ∧ (process_hospitals_async job hospitals env).1.result
        = some (process_hospitals_async job hospitals env).2.2.2
    ∧ (process_hospitals_async job hospitals env).1.status = JobStatus.completed
    ∧ ∀ (job' : Job) (hs' : List HospitalCreate) (env' : OrchEnv),
        ((process_hospitals_async job' hs' env').2.2.1).filter
          ClientCall.isDelete = [] := by
  have hpos : 0 < (create_hospitals_concurrently hospitals env.outcomes).countP
      (fun r => r.status == "failed") := by
    refine List.countP_pos_iff.mpr ?_
    obtain ⟨r, hr, hst⟩ := hfail
    exact ⟨r, hr, by simp [hst]⟩
  have hne : ¬((create_hospitals_concurrently hospitals env.outcomes).countP
      (fun r => r.status == "failed") = 0) := Nat.pos_iff_ne_zero.mp hpos
  refine ⟨?_, ?_, ?_, ?_, orchestrator_never_deletes⟩
  · unfold process_hospitals_async
    dsimp only
    rw [if_neg hne]
    simp [List.filter_append, filter_isActivate_createCalls]
  · unfold process_hospitals_async
    dsimp only
    rw [if_neg hne]
  · unfold process_hospitals_async
    dsimp only
    rw [update_status_result]
    rfl
  · exact update_status_status _ _ _

/-- Witness for the failed-item branch: a concrete run whose single create
is rejected by the remote API. -/
theorem orchestrator_failure_no_activation_no_rollback_witness :
    (∃ r ∈ create_hospitals_concurrently [hospitalW] [CreateOutcome.apiError "bad"],
        r.status = "failed")
    ∧ (process_hospitals_async (JobRepository.create "j" 1) [hospitalW]
        ⟨[CreateOutcome.apiError "bad"], ActivateOutcome.ok, 7, 1, 2, 0⟩).2.2.2.batch_activated
        = false := by
  have hfail : ∃ r ∈ create_hospitals_concurrently [hospitalW]
      [CreateOutcome.apiError "bad"], r.status = "failed" := by decide
  exact ⟨hfail,
    (orchestrator_failure_no_activation_no_rollback (JobRepository.create "j" 1)
      [hospitalW] ⟨[CreateOutcome.apiError "bad"], ActivateOutcome.ok, 7, 1, 2, 0⟩
      hfail).2.1⟩

/-- A cached entry written by `set` is returned by `get` while its TTL has
not elapsed. -/
lemma idem_get_set_hit (c : IdemCache) (k : String) (v : JobSubmitResponse)
    (now ttl now2 : Nat) (h : now2 < now + ttl) :
    IdempotencyStore.get (IdempotencyStore.set c k v now ttl) k now2 = some v := by
  simp [IdempotencyStore.get, IdempotencyStore.set, h]

/-- C3: when a submission with a fresh idempotency key succeeds and a second
submission with the same key arrives while the cached entry is still within
the TTL, the second call returns the same response (hence the same job id),
creates no new job record and dispatches no second unit of work: the whole
submission state is unchanged. -/
theorem submit_idempotent_within_ttl (st : SubmitState)
    (hospitals hospitals2 : List HospitalCreate) (key freshId freshId2 : String)
    (disp2 : DispatchOutcome) (now1 now2 ttl : Nat)
    (h1 : IdempotencyStore.get st.cache key now1 = none)
    (h2 : now2 < now1 + ttl) :
    (JobService.submit_bulk_job
        (JobService.submit_bulk_job st hospitals key freshId
          DispatchOutcome.ok now1 ttl).2.1
        hospitals2 key freshId2 disp2 now2 ttl).1
      = (JobService.submit_bulk_job st hospitals key freshId
          DispatchOutcome.ok now1 ttl).1
    ∧ (JobService.submit_bulk_job
        (JobService.submit_bulk_job st hospitals key freshId
          DispatchOutcome.ok now1 ttl).2.1
        hospitals2 key freshId2 disp2 now2 ttl).2.1
      = (JobService.submit_bulk_job st hospitals key freshId
          DispatchOutcome.ok now1 ttl).2.1 := by
  unfold JobService.submit_bulk_job
  rw [h1]
  dsimp only
  rw [idem_get_set_hit st.cache key _ now1 ttl now2 h2]
  exact ⟨rfl, rfl⟩

/-- Witness for idempotent resubmission: an empty cache, a first successful
submission at time 0 and a resubmission at time 10 with TTL 300. -/
theorem submit_idempotent_within_ttl_witness :
    IdempotencyStore.get ([] : IdemCache) "k" 0 = none
    ∧ (10 : Nat) < 0 + 300
    ∧ (JobService.submit_bulk_job
        (JobService.submit_bulk_job ⟨[], [], []⟩ [hospitalW] "k" "j1"
          DispatchOutcome.ok 0 300).2.1
        [hospitalW] "k" "j2" DispatchOutcome.ok 10 300).1
      = (JobService.submit_bulk_job ⟨[], [], []⟩ [hospitalW] "k" "j1"
          DispatchOutcome.ok 0 300).1 :=
  ⟨rfl, by decide,
    (submit_idempotent_within_ttl ⟨[], [], []⟩ [hospitalW] [hospitalW] "k" "j1"
      "j2" DispatchOutcome.ok 0 10 300 rfl (by decide)).1⟩

/-- A job that has already reached the terminal COMPLETED state, with its
completion timestamp set at instant 5. -/
def jobDoneW : Job :=
  { job_id := "j"
    status := JobStatus.completed
    total_hospitals := 0
    processed_hospitals := 0
    failed_hospitals := 0
    started_at := some 1
    completed_at := some 5
    result := none
    error := none }

/-- C4 counterexample: delivering an already COMPLETED job to the
orchestrator entry point does not return immediately — there is no
terminal-state check.  The run sets the job back to PROCESSING (first
written state) and then overwrites the completion timestamp, so a terminal
status is re-entered and the completion timestamp is written a second
time. -/
theorem terminal_job_reentered_counterexample :
    jobDoneW.status = JobStatus.completed
    ∧ jobDoneW.completed_at = some 5
    ∧ ((process_hospitals_async jobDoneW []
        ⟨[], ActivateOutcome.ok, 7, 10, 11, 0⟩).2.1.map Job.status)
        = [JobStatus.processing, JobStatus.processing, JobStatus.completed]
    ∧ (process_hospitals_async jobDoneW []
        ⟨[], ActivateOutcome.ok, 7, 10, 11, 0⟩).1.completed_at = some 11 := by
  refine ⟨rfl, rfl, ?_, ?_⟩ <;> decide

/-- C4 amended: the orchestrator entry point performs no terminal-state
check.  For every job record — terminal or not — delivery immediately writes
status PROCESSING as its first job-store state, then finalizes the job
COMPLETED with the completion timestamp overwritten by this run's clock
reading; re-delivery of a terminal job therefore re-enters PROCESSING and
rewrites the completion timestamp (it is set once per delivery, not once per
job). -/
theorem orchestrator_reprocesses_without_terminal_check (job : Job)
    (hospitals : List HospitalCreate) (env : OrchEnv) :
    ((process_hospitals_async job hospitals env).2.1.head?).map Job.status
      = some JobStatus.processing
    ∧ (process_hospitals_async job hospitals env).1.status = JobStatus.completed
    ∧ (process_hospitals_async job hospitals env).1.completed_at
        = some env.tEnd := by
  refine ⟨?_, update_status_status _ _ _,
    update_status_terminal_completed_at _ _ _ (Or.inl rfl)⟩
  show Option.map Job.status
    (some (JobRepository.update_status job JobStatus.processing env.tStart))
    = some JobStatus.processing
  simp only [Option.map, update_status_status]

/-- Record-level facts about `set_result`. -/
lemma set_result_fields (j : Job) (r : BulkCreateResponse) :
    (JobRepository.set_result j r).status = j.status
    ∧ (JobRepository.set_result j r).total_hospitals = j.total_hospitals
    ∧ (JobRepository.set_result j r).processed_hospitals = r.processed_hospitals
    ∧ (JobRepository.set_result j r).failed_hospitals = r.failed_hospitals :=
  ⟨rfl, rfl, rfl, rfl⟩

/-- C5: for a job created for this submission (zero counters, total equal to
the number of submitted items) and a run with one create outcome per item,
the orchestrator finalizes the job COMPLETED, and every job-store state it
writes satisfies the counter invariant: processed + failed ≤ total while
non-terminal, with equality once the status is COMPLETED. -/
theorem completed_counts_invariant (job : Job) (hospitals : List HospitalCreate)
    (env : OrchEnv)
    (h0p : job.processed_hospitals = 0) (h0f : job.failed_hospitals = 0)
    (htot : job.total_hospitals = hospitals.length)
    (hlen : env.outcomes.length = hospitals.length) :
    (process_hospitals_async job hospitals env).1.status = JobStatus.completed
    ∧ ∀ s ∈ (process_hospitals_async job hospitals env).2.1,
        (s.status = JobStatus.completed →
            s.processed_hospitals + s.failed_hospitals = s.total_hospitals)
          ∧ (s.status ≠ JobStatus.completed → s.status ≠ JobStatus.failed →
            s.processed_hospitals + s.failed_hospitals ≤ s.total_hospitals) := by
  have hrl : (create_hospitals_concurrently hospitals env.outcomes).length
      = hospitals.length := by
    rw [create_hospitals_concurrently, List.length_zipWith, hlen, Nat.min_self]
  have hfcle : (create_hospitals_concurrently hospitals env.outcomes).countP
        (fun r => r.status == "failed")
      ≤ (create_hospitals_concurrently hospitals env.outcomes).length :=
    List.countP_le_length _
  have hsum : ((create_hospitals_concurrently hospitals env.outcomes).length
        - (create_hospitals_concurrently hospitals env.outcomes).countP
            (fun r => r.status == "failed"))
      + (create_hospitals_concurrently hospitals env.outcomes).countP
          (fun r => r.status == "failed")
      = (create_hospitals_concurrently hospitals env.outcomes).length :=
    Nat.sub_add_cancel hfcle
  refine ⟨update_status_status _ _ _, ?_⟩
  intro s hs
  have hmem := hs
  simp only [process_hospitals_async, List.mem_cons, List.not_mem_nil,
    or_false] at hmem
  rcases hmem with rfl | rfl | rfl
  · constructor
    · intro hc
      rw [update_status_status] at hc
      exact absurd hc (by simp)
    · intro _ _
      obtain ⟨hp, hf, ht⟩ := update_status_counts job JobStatus.processing env.tStart
      rw [hp, hf, ht, h0p, h0f]
      exact Nat.zero_le _
  · constructor
    · intro hc
      rw [(set_result_fields _ _).1, update_status_status] at hc
      exact absurd hc (by simp)
    · intro _ _
      obtain ⟨_, ht, hp, hf⟩ := set_result_fields
        (JobRepository.update_status job JobStatus.processing env.tStart) _
      rw [ht, hp, hf, (update_status_counts _ _ _).2.2, htot]
      dsimp only
      rw [hsum, hrl]
  · constructor
    · intro _
      obtain ⟨hp, hf, ht⟩ := update_status_counts
        (JobRepository.set_result
          (JobRepository.update_status job JobStatus.processing env.tStart) _)
        JobStatus.completed env.tEnd
      rw [hp, hf, ht]
      obtain ⟨_, ht2, hp2, hf2⟩ := set_result_fields
        (JobRepository.update_status job JobStatus.processing env.tStart) _
      rw [ht2, hp2, hf2, (update_status_counts _ _ _).2.2, htot]
      dsimp only
      rw [hsum, hrl]
    · intro h _
      rw [update_status_status] at h
      exact absurd rfl h

/-- Witness for the counter invariant on a concrete one-item run. -/
theorem completed_counts_invariant_witness :
    (JobRepository.create "j" 1).processed_hospitals = 0
    ∧ (JobRepository.create "j" 1).failed_hospitals = 0
    ∧ (JobRepository.create "j" 1).total_hospitals
        = ([hospitalW] : List HospitalCreate).length
    ∧ ([CreateOutcome.ok 5] : List CreateOutcome).length
        = ([hospitalW] : List HospitalCreate).length
    ∧ (process_hospitals_async (JobRepository.create "j" 1) [hospitalW]
        ⟨[CreateOutcome.ok 5], ActivateOutcome.ok, 7, 1, 2, 0⟩).1.status
        = JobStatus.completed :=
  ⟨rfl, rfl, rfl, rfl,
    (completed_counts_invariant (JobRepository.create "j" 1) [hospitalW]
      ⟨[CreateOutcome.ok 5], ActivateOutcome.ok, 7, 1, 2, 0⟩
      rfl rfl rfl rfl).1⟩

/-- C6 counterexample: an infrastructure failure (request timeout) inside
`activate_batch` does not propagate to the caller as an exception — the
blanket handler in its body returns it in the error component — while the
same failure in `create_hospital` is re-raised; so the two operations do not
share the claimed contract. -/
theorem activate_timeout_not_raised_counterexample :
    (activate_batch 5 60 3 (CBState.closed 0) 0
        (fun _ => HttpOutcome.timeout "t")).1
      = Except.ok (false, some "Error activating batch: t")
    ∧ (create_hospital 5 60 3 (CBState.closed 0) 0
        (fun _ => HttpOutcome.timeout "t")).1
      = Except.error (PyExn.externalAPI "Request timeout: t") :=
  ⟨rfl, rfl⟩

/-- A body that succeeds on the current attempt makes the retry loop stop
after one invocation. -/
lemma retryExec_first_ok {α : Type} (body : HttpOutcome → Except PyExn α)
    (att : Nat → HttpOutcome) (a : α) (i : Nat)
    (h : body (att i) = Except.ok a) :
    ∀ fuel, retryExec body att i fuel = (Except.ok a, 1) := by
  intro fuel
  cases fuel <;> simp [retryExec, h]

/-- A body that fails on every attempt exhausts the retry budget and the
last error is re-raised. -/
lemma retryExec_const_error {α : Type} (body : HttpOutcome → Except PyExn α)
    (att : Nat → HttpOutcome) (e : PyExn)
    (h : ∀ i, body (att i) = Except.error e) :
    ∀ fuel i, retryExec body att i fuel = (Except.error e, fuel + 1) := by
  intro fuel
  induction fuel with
  | zero => intro i; simp [retryExec, h i]
  | succ n ih => intro i; simp [retryExec, h i, ih (i + 1)]

/-- C6 amended: `create_hospital` returns ordinary API rejections (non-2xx
responses) in the error component and raises only for infrastructure
failures — breaker-open, or timeout and the like once retries are
exhausted.  `activate_batch` does not share that contract: its blanket
exception handler converts every failure inside the call body, timeouts
included, into a `(false, error)` return value, so for `activate_batch`
only the breaker-open error propagates to the caller as an exception. -/
theorem client_error_contract_amended (failMax resetTimeout maxAttempts : Nat)
    (now t code entityId : Nat) (respBody m : String)
    (att : Nat → HttpOutcome)
    (hc200 : code ≠ 200) (hc201 : code ≠ 201) (hc204 : code ≠ 204)
    (hopen : now < t + resetTimeout) :
    (create_hospital failMax resetTimeout maxAttempts (CBState.closed 0) now
        (fun _ => HttpOutcome.response code entityId respBody)).1
      = Except.ok
          (none, some ("API returned status " ++ toString code ++ ": " ++ respBody))
    ∧ (create_hospital failMax resetTimeout maxAttempts (CBState.closed 0) now
        (fun _ => HttpOutcome.timeout m)).1
      = Except.error (PyExn.externalAPI ("Request timeout: " ++ m))
    ∧ (activate_batch failMax resetTimeout maxAttempts (CBState.closed 0) now
        (fun _ => HttpOutcome.response code entityId respBody)).1
      = Except.ok
          (false, some ("API returned status " ++ toString code ++ ": " ++ respBody))
    ∧ (activate_batch failMax resetTimeout maxAttempts (CBState.closed 0) now
        (fun _ => HttpOutcome.timeout m)).1
      = Except.ok (false, some ("Error activating batch: " ++ m))
    ∧ (create_hospital failMax resetTimeout maxAttempts (CBState.opened t) now
        att).1 = Except.error PyExn.circuitBreakerOpen
    ∧ (activate_batch failMax resetTimeout maxAttempts (CBState.opened t) now
        att).1 = Except.error PyExn.circuitBreakerOpen := by
  have hcb : create_hospital_body (HttpOutcome.response code entityId respBody)
      = Except.ok
          (none, some ("API returned status " ++ toString code ++ ": " ++ respBody)) := by
    simp [create_hospital_body, hc200, hc201]
  have hab : activate_batch_body (HttpOutcome.response code entityId respBody)
      = Except.ok
          (false, some ("API returned status " ++ toString code ++ ": " ++ respBody)) := by
    simp [activate_batch_body, hc200, hc204]
  have habt : ∀ i : Nat, activate_batch_body ((fun _ : Nat => HttpOutcome.timeout m) i)
      = Except.ok (false, some ("Error activating batch: " ++ m)) := by
    intro i
    rfl
  have hct : ∀ i : Nat, create_hospital_body ((fun _ : Nat => HttpOutcome.timeout m) i)
      = Except.error (PyExn.externalAPI ("Request timeout: " ++ m)) := by
    intro i
    rfl
  refine ⟨?_, ?_, ?_, ?_, ?_, ?_⟩
  · unfold create_hospital breakerCall retryCall
    dsimp only
    rw [retryExec_first_ok _ _ _ 0 hcb]
  · unfold create_hospital breakerCall retryCall
    dsimp only
    rw [retryExec_const_error _ _ _ hct]
    dsimp only
    split <;> rfl
  · unfold activate_batch breakerCall retryCall
    dsimp only
    rw [retryExec_first_ok _ _ _ 0 hab]
  · unfold activate_batch breakerCall retryCall
    dsimp only
    rw [retryExec_first_ok _ _ _ 0 (habt 0)]
  · unfold create_hospital breakerCall
    dsimp only
    rw [if_pos hopen]
  · unfold activate_batch breakerCall
    dsimp only
    rw [if_pos hopen]

/-- Witness for the amended client contract at concrete parameters. -/
theorem client_error_contract_amended_witness :
    (500 : Nat) ≠ 200 ∧ (500 : Nat) ≠ 201 ∧ (500 : Nat) ≠ 204 ∧ (0 : Nat) < 0 + 60
    ∧ (activate_batch 5 60 3 (CBState.closed 0) 0
        (fun _ => HttpOutcome.timeout "x")).1
      = Except.ok (false, some ("Error activating batch: " ++ "x")) := by
  refine ⟨by decide, by decide, by decide, by decide, ?_⟩
  exact (client_error_contract_amended 5 60 3 0 0 500 9 "b" "x"
    (fun _ => HttpOutcome.timeout "x") (by decide) (by decide) (by decide)
    (by decide)).2.2.2.1

/-- C9: a client call attempted while the circuit breaker is OPEN (within
the recovery timeout) fails immediately with the distinct breaker-open
error; the wrapped retry loop and the remote operation are never invoked
(zero body invocations), so a breaker-open failure is never retried; this
holds for both client operations. -/
theorem breaker_open_fast_fail (failMax resetTimeout maxAttempts t now : Nat)
    (att : Nat → HttpOutcome) (h : now < t + resetTimeout) :
    create_hospital failMax resetTimeout maxAttempts (CBState.opened t) now att
      = (Except.error PyExn.circuitBreakerOpen, CBState.opened t, 0)
    ∧ activate_batch failMax resetTimeout maxAttempts (CBState.opened t) now att
      = (Except.error PyExn.circuitBreakerOpen, CBState.opened t, 0) := by
  refine ⟨?_, ?_⟩
  · unfold create_hospital breakerCall
    dsimp only
    rw [if_pos h]
  · unfold activate_batch breakerCall
    dsimp only
    rw [if_pos h]

/-- Witness for the breaker-open fast-fail at concrete parameters. -/
theorem breaker_open_fast_fail_witness :
    (10 : Nat) < 4 + 60
    ∧ create_hospital 5 60 3 (CBState.opened 4) 10
        (fun _ => HttpOutcome.timeout "x")
      = (Except.error PyExn.circuitBreakerOpen, CBState.opened 4, 0) :=
  ⟨by decide,
    (breaker_open_fast_fail 5 60 3 4 10 (fun _ => HttpOutcome.timeout "x")
      (by decide)).1⟩

/-- `update_status` does not change the job id. -/
lemma update_status_job_id (j : Job) (s : JobStatus) (now : Nat) :
    (JobRepository.update_status j s now).job_id = j.job_id := by
  dsimp only [JobRepository.update_status]
  repeat' split
  all_goals simp_all

/-- Record-level facts about `set_error`: the status is forced to FAILED,
the error text is stored, the completion timestamp is written and the job id
is preserved. -/
lemma set_error_fields (j : Job) (e : String) (now : Nat) :
    (JobRepository.set_error j e now).status = JobStatus.failed
    ∧ (JobRepository.set_error j e now).error = some e
    ∧ (JobRepository.set_error j e now).completed_at = some now
    ∧ (JobRepository.set_error j e now).job_id = j.job_id := by
  dsimp only [JobRepository.set_error]
  split <;> exact ⟨rfl, rfl, rfl, rfl⟩

/-- C7: when dispatch to the work channel throws (queue-unavailable or any
other exception), the submission returns an HTTP error, the job created for
this submission is in the store transitioned to FAILED with a descriptive
error and a completion timestamp before the failure is surfaced, PROCESSING
is never among the statuses assigned during the call (and the job is not
left PENDING), no unit of work is recorded as dispatched, and the
idempotency cache is left untouched — nothing is cached under the key. -/
theorem dispatch_failure_fails_job (st : SubmitState)
    (hospitals : List HospitalCreate) (key freshId m : String)
    (now ttl : Nat) (disp : DispatchOutcome)
    (hmiss : IdempotencyStore.get st.cache key now = none)
    (hdisp : disp = DispatchOutcome.opError m ∨ disp = DispatchOutcome.exn m) :
    (∃ c d, (JobService.submit_bulk_job st hospitals key freshId disp now ttl).1
        = Except.error (c, d))
    ∧ JobStatus.processing ∉
        (JobService.submit_bulk_job st hospitals key freshId disp now ttl).2.2
    ∧ (JobService.submit_bulk_job st hospitals key freshId disp now ttl).2.1.cache
        = st.cache
    ∧ (JobService.submit_bulk_job st hospitals key freshId disp now ttl).2.1.dispatched
        = st.dispatched
    ∧ ∃ jf ∈ (JobService.submit_bulk_job st hospitals key freshId disp
          now ttl).2.1.jobs,
        jf.job_id = freshId ∧ jf.status = JobStatus.failed
          ∧ (jf.error = some "Message queue unavailable"
              ∨ jf.error = some ("Failed to queue job: " ++ m))
          ∧ jf.completed_at = some now := by
  rcases hdisp with rfl | rfl <;>
    (unfold JobService.submit_bulk_job
     rw [hmiss]
     dsimp only
     refine ⟨⟨_, _, rfl⟩, by decide, rfl, rfl, ?_⟩
     refine ⟨_, List.mem_map.mpr
       ⟨JobRepository.create freshId hospitals.length,
        List.mem_append.mpr (Or.inr (List.mem_singleton.mpr rfl)), rfl⟩, ?_⟩
     rw [if_pos
       (show (JobRepository.create freshId hospitals.length).job_id = freshId
         from rfl)]
     obtain ⟨hst, herr, hca, hid⟩ := set_error_fields
       (JobRepository.update_status (JobRepository.create freshId hospitals.length)
         JobStatus.failed now) _ now
     rw [hst, herr, hca, hid, update_status_job_id])
  · exact ⟨rfl, rfl, Or.inl rfl, rfl⟩
  · exact ⟨rfl, rfl, Or.inr rfl, rfl⟩

/-- Witness for the dispatch-failure scenario with a concrete state. -/
theorem dispatch_failure_fails_job_witness :
    IdempotencyStore.get ([] : IdemCache) "k" 0 = none
    ∧ (JobService.submit_bulk_job ⟨[], [], []⟩ [hospitalW] "k" "j1"
        (DispatchOutcome.opError "down") 0 300).2.1.dispatched = [] :=
  ⟨rfl,
    (dispatch_failure_fails_job ⟨[], [], []⟩ [hospitalW] "k" "j1" "down" 0 300
      (DispatchOutcome.opError "down") rfl (Or.inl rfl)).2.2.2.1⟩

/-- C8: an unexpected exception raised while creating one item is caught
locally and converted into an item result with status "failed" carrying the
exception text — the per-item task returns a result instead of propagating,
so no sibling task and no job is aborted — and the concurrent gather yields
exactly one item result per input item. -/
theorem per_item_exception_contained :
    (∀ (h : HospitalCreate) (m : String),
        create_single_hospital h (CreateOutcome.exn m)
          = { row := h.row_number, hospital_id := none, name := h.name,
              status := "failed",
              error_message := some ("Unexpected error: " ++ m) })
    ∧ ∀ (hs : List HospitalCreate) (outs : List CreateOutcome),
        hs.length = outs.length →
        (create_hospitals_concurrently hs outs).length = hs.length := by
  constructor
  · intro h m
    rfl
  · intro hs outs hl
    rw [create_hospitals_concurrently, List.length_zipWith, hl, Nat.min_self]

/-- Witness for the per-item exception contract on a concrete item. -/
theorem per_item_exception_contained_witness :
    create_single_hospital hospitalW (CreateOutcome.exn "boom")
      = { row := hospitalW.row_number, hospital_id := none,
          name := hospitalW.name, status := "failed",
          error_message := some ("Unexpected error: " ++ "boom") }
    ∧ ([hospitalW] : List HospitalCreate).length
        = ([CreateOutcome.exn "boom"] : List CreateOutcome).length
    ∧ (create_hospitals_concurrently [hospitalW] [CreateOutcome.exn "boom"]).length
        = ([hospitalW] : List HospitalCreate).length :=
  ⟨per_item_exception_contained.1 hospitalW "boom", rfl,
    per_item_exception_contained.2 [hospitalW] [CreateOutcome.exn "boom"] rfl⟩

/-- C10: the `progress_percentage` accessor is total: on a job with zero
total items it returns 0 without dividing, and otherwise it returns the
processed ratio as a percentage rounded to two decimals, so status polling
cannot fail on a zero-item job. -/
theorem progress_percentage_total (j : Job) :
    (j.total_hospitals = 0 → j.progress_percentage = 0)
    ∧ (j.total_hospitals ≠ 0 → j.progress_percentage
        = round2 (((j.processed_hospitals : ℚ) / (j.total_hospitals : ℚ)) * 100)) := by
  constructor
  · intro h
    simp [Job.progress_percentage, h]
  · intro h
    simp [Job.progress_percentage, h]

/-- Witness for the progress accessor: a zero-item job reports 0 and a
four-item job with one processed item reports 25. -/
theorem progress_percentage_total_witness :
    jobDoneW.total_hospitals = 0 ∧ jobDoneW.progress_percentage = 0
    ∧ ({ jobDoneW with total_hospitals := 4, processed_hospitals := 1
        } : Job).progress_percentage
        = round2 (((1 : ℚ) / (4 : ℚ)) * 100) :=
  ⟨rfl, (progress_percentage_total jobDoneW).1 rfl,
    (progress_percentage_total
      { jobDoneW with total_hospitals := 4, processed_hospitals := 1 }).2
      (by decide)⟩
